import Mathlib

/-!
# Velocirrus Analytics — verification of the risk-classification core

Shallow embedding of `src/app.py` (velocirrus-analytics).  Machine floats
are modelled as exact rationals (`ℚ`); `np.sin` is an abstract parameter
`sin : ℚ → ℚ` (its analytic value never decides a claim);
`np.random.randint` is an abstract per-index generator `efGen : ℕ → ℚ`;
`datetime.now()` is an abstract start time.  Dataframe rows are records
whose possibly-absent columns are `Option`-valued.

The colour constants of `get_color` are the code's only risk markers:
`[255, 0, 0, 200]` ("Red for Warming") is the fixed HIGH marker and
`[0, 255, 0, 200]` ("Green for Safe") is the fixed LOW marker.
-/

/-- One row of the mock flight dataframe built by
`generate_mock_flight_path` (src/app.py lines 36-44): columns
`longitude`, `latitude`, `altitude`, `time`, `ef`. -/
structure FlightPoint where
  longitude : ℚ
  latitude : ℚ
  altitude : ℚ
  time : ℚ
  ef : ℚ
  deriving DecidableEq, Repr

/-- One zone record of `generate_mock_contrail_zones`
(src/app.py lines 61-64): keys `name`, `path`, `color`. -/
structure Zone where
  name : String
  path : List (ℚ × ℚ)
  color : List ℕ
  deriving DecidableEq, Repr

/-- A raw OpenSky state record as delivered by `opensky.api_states`
(src/app.py line 133).  Each column may be null in the feed, hence
`Option`; only the columns the script touches are modelled. -/
structure RawRecord where
  icao24 : Option String
  callsign : Option String
  lon : Option ℚ
  lat : Option ℚ
  baroaltitude : Option ℚ
  deriving DecidableEq, Repr

/-- A row of the dataframe `flight_df` as it reaches the colour step
(src/app.py line 182).  The mock branch fills `longitude`, `latitude`,
`altitude`, `time`, `ef`; the live branch fills the renamed OpenSky
columns plus `ef`; columns a branch never creates are `none`.
`color` is `none` until line 182 assigns it. -/
structure Row where
  icao24 : Option String
  callsign : Option String
  longitude : Option ℚ
  latitude : Option ℚ
  altitude : Option ℚ
  time : Option ℚ
  ef : ℚ
  color : Option (List ℕ)
  deriving DecidableEq, Repr

/-- `np.linspace a b n` sampled at index `i`: step `(b - a) / (n - 1)`
(src/app.py lines 25, 26, 30). -/
def linspace (a b : ℚ) (n i : ℕ) : ℚ :=
  a + i * (b - a) / ((n : ℚ) - 1)

/-- `generate_mock_flight_path` (src/app.py lines 19-45): 100 points,
longitudes `linspace(-0.45, -73.77, 100)`, latitudes
`linspace(51.47, 40.64, 100)`, altitudes `linspace(10668, 11887, 100)`,
times `start_time + i*4.8` minutes, and
`ef = 50*sin(i/10) if 30 < i < 70 else 0`.  `sin` abstracts `np.sin`,
`start_time` abstracts `datetime.now()`. -/
def generate_mock_flight_path (sin : ℚ → ℚ) (start_time : ℚ) : List FlightPoint :=
  (List.range 100).map fun i =>
    { longitude := linspace (-0.45) (-73.77) 100 i
      latitude := linspace 51.47 40.64 100 i
      altitude := linspace 10668 11887 100 i
      time := start_time + i * 4.8
      ef := if 30 < i ∧ i < 70 then 50 * sin ((i : ℚ) / 10) else 0 }

/-- The first polygon `p1` of `generate_mock_contrail_zones`
(src/app.py lines 54-56). -/
def p1 : List (ℚ × ℚ) :=
  [(-40, 45), (-30, 45), (-30, 50), (-40, 50), (-40, 45)]

/-- The second polygon `p2` of `generate_mock_contrail_zones`
(src/app.py lines 57-59). -/
def p2 : List (ℚ × ℚ) :=
  [(-20, 48), (-15, 48), (-15, 52), (-20, 52), (-20, 48)]

/-- `generate_mock_contrail_zones` (src/app.py lines 47-65): the fixed
fallback zone list, used on every branch of the script. -/
def generate_mock_contrail_zones : List Zone :=
  [ { name := "Zone Alpha (High Humidity)", path := p1, color := [255, 0, 0, 100] },
    { name := "Zone Beta (Ice Supersaturated)", path := p2, color := [255, 140, 0, 100] } ]

/-- `get_color` (src/app.py lines 176-180): red `[255,0,0,200]` when
`ef_value > 10`, else green `[0,255,0,200]`. -/
def get_color (ef_value : ℚ) : List ℕ :=
  if ef_value > 10 then [255, 0, 0, 200] else [0, 255, 0, 200]

/-- The colour-assignment step
`flight_df["color"] = flight_df["ef"].apply(get_color)`
(src/app.py line 182).  At that point `zones_data` is in scope but never
read; the `zones` parameter records the classifier interface of the spec
so that zone-(in)dependence can be stated. -/
def classify (ps : List Row) (zones : List Zone) : List Row :=
  ps.map fun r => { r with color := some (get_color r.ef) }

/-- Lift a mock-path point into the common dataframe-row type: the mock
dataframe has columns `longitude`, `latitude`, `altitude`, `time`, `ef`
and no identifier columns. -/
def FlightPoint.toRow (p : FlightPoint) : Row :=
  { icao24 := none, callsign := none, longitude := some p.longitude,
    latitude := some p.latitude, altitude := some p.altitude,
    time := some p.time, ef := p.ef, color := none }

/-- The column rename of the live branch (src/app.py lines 140-144):
`lon → longitude`, `lat → latitude`, `baroaltitude → altitude`; the
identifier columns pass through and the dataframe has no `ef`, `time`
or `color` column yet (`ef` is created later, at line 152; its value
before that line is never observed). -/
def rename_columns (r : RawRecord) : Row :=
  { icao24 := r.icao24, callsign := r.callsign, longitude := r.lon,
    latitude := r.lat, altitude := r.baroaltitude, time := none,
    ef := 0, color := none }

/-- The altitude filter `flight_df[flight_df['altitude'] > 5000]`
(src/app.py line 147).  A null altitude compares false in pandas, so the
row is dropped. -/
def altitude_filter (row : Row) : Bool :=
  match row.altitude with
  | some a => decide (5000 < a)
  | none => false

/-- The live branch's dataframe processing when `sv is not None`
(src/app.py lines 137-152): rename columns, keep rows with
`altitude > 5000`, then create the `ef` column positionally from the
random generator (`np.random.randint(0, 50, size=len(flight_df))`,
abstracted as `efGen`). -/
def process_live_states (efGen : ℕ → ℚ) (recs : List RawRecord) : List Row :=
  (((recs.map rename_columns).filter altitude_filter).enum).map
    fun p => { p.2 with ef := efGen p.1 }

/-- The whole live-data branch (src/app.py lines 116-171) as a function
of the fetch outcome: `.error e` models an exception inside the `try`
block, `.ok none` models `sv is None`, `.ok (some recs)` models a
successful fetch of `recs`.  It returns the `(flight_df, zones_data)`
pair reaching the colour step. -/
def live_data_path (fetch : Except String (Option (List RawRecord)))
    (efGen : ℕ → ℚ) (sin : ℚ → ℚ) (start_time : ℚ) : List Row × List Zone :=
  match fetch with
  | .ok (some recs) => (process_live_states efGen recs, generate_mock_contrail_zones)
  | .ok none =>
      ((generate_mock_flight_path sin start_time).map FlightPoint.toRow,
        generate_mock_contrail_zones)
  | .error _ =>
      ((generate_mock_flight_path sin start_time).map FlightPoint.toRow,
        generate_mock_contrail_zones)

/-- Membership in the closed axis-aligned rectangle
`[x0, x1] × [y0, y1]`; used to state that the two fallback polygons
cover disjoint rectangular regions. -/
def in_rect (x0 x1 y0 y1 : ℚ) (p : ℚ × ℚ) : Prop :=
  x0 ≤ p.1 ∧ p.1 ≤ x1 ∧ y0 ≤ p.2 ∧ p.2 ≤ y1

instance (x0 x1 y0 y1 : ℚ) (p : ℚ × ℚ) : Decidable (in_rect x0 x1 y0 y1 p) := by
  unfold in_rect; infer_instance

/-- Erase the derived colour column, leaving every other field; two row
lists agree under `erase_color` exactly when they agree on everything
but the colour annotation. -/
def erase_color (r : Row) : Row :=
  { r with color := none }


/-- Build a classification-input row at a given longitude, latitude and
`ef` value, cruising altitude, no identifier columns. -/
def mk_pos (lon lat e : ℚ) : Row :=
  { icao24 := none, callsign := none, longitude := some lon,
    latitude := some lat, altitude := some 11000, time := none,
    ef := e, color := none }

/-- C7: classification returns a value-equivalent copy of the input
rows annotated with a colour: same length, same order, and every field
other than the derived `color` column unchanged. -/
theorem C7_frame_preservation (ps : List Row) (zs : List Zone) :
    (classify ps zs).length = ps.length
      ∧ (classify ps zs).map erase_color = ps.map erase_color := by
  constructor
  · simp [classify]
  · simp only [classify, List.map_map]
    rfl

/-- C8: classification is deterministic (a pure function of its inputs
in this embedding, with no ambient state) and idempotent: re-running
the colour assignment on an already-annotated row list reproduces it
exactly, because the colour is recomputed from the unchanged `ef`. -/
theorem C8_idempotent_deterministic (ps : List Row) (zs : List Zone) :
    classify ps zs = classify ps zs
      ∧ classify (classify ps zs) zs = classify ps zs := by
  refine ⟨rfl, ?_⟩
  simp only [classify, List.map_map]
  rfl

/-- C9: `get_color` depends on `ef` alone — red `[255,0,0,200]` exactly
when `ef > 10`, green `[0,255,0,200]` otherwise, so `ef = 10` is green —
and `classify` gives identical output for any two zone lists. -/
theorem C9_color_ef_threshold (e : ℚ) (ps : List Row) (zs zs' : List Zone) :
    (10 < e → get_color e = [255, 0, 0, 200])
      ∧ (e ≤ 10 → get_color e = [0, 255, 0, 200])
      ∧ (get_color e = [255, 0, 0, 200] ↔ 10 < e)
      ∧ get_color 10 = [0, 255, 0, 200]
      ∧ classify ps zs = classify ps zs' := by
  refine ⟨?_, ?_, ?_, by decide, rfl⟩
  · intro h
    simp [get_color, h]
  · intro h
    simp [get_color, not_lt.mpr h]
  · constructor
    · intro h
      by_contra hlt
      simp [get_color, hlt] at h
    · intro h
      simp [get_color, h]

/-- Witness for C9 at concrete `ef` values 20, 7 and 10. -/
theorem C9_color_ef_threshold_witness :
    get_color 20 = [255, 0, 0, 200] ∧ get_color 7 = [0, 255, 0, 200]
      ∧ get_color 10 = [0, 255, 0, 200] :=
  ⟨(C9_color_ef_threshold 20 [] [] []).1 (by norm_num),
   (C9_color_ef_threshold 7 [] [] []).2.1 (by norm_num),
   (C9_color_ef_threshold 10 [] [] []).2.2.2.1⟩

/-- C1 (counterexample): with an empty zone list no zone contains the
point `(0, 0)`, yet the row (with `ef = 50`) is assigned the HIGH marker
`[255,0,0,200]`, not the LOW marker — classification never consults zone
containment. -/
theorem C1_counterexample :
    classify [mk_pos 0 0 50] []
        = [{ mk_pos 0 0 50 with color := some [255, 0, 0, 200] }]
      ∧ [255, 0, 0, 200] ≠ [0, 255, 0, 200] :=
  ⟨by decide, by decide⟩

/-- C1 (amended): the classifier ignores the zone sequence entirely —
identical output for any two zone lists — and assigns each position the
HIGH marker exactly when its `ef` exceeds 10, the LOW marker
otherwise. -/
theorem C1_amended (ps : List Row) (zs zs' : List Zone) :
    classify ps zs = classify ps zs'
      ∧ ∀ r ∈ classify ps zs,
          (10 < r.ef → r.color = some [255, 0, 0, 200])
            ∧ (r.ef ≤ 10 → r.color = some [0, 255, 0, 200]) := by
  refine ⟨rfl, ?_⟩
  intro r hr
  simp only [classify, List.mem_map] at hr
  obtain ⟨x, -, rfl⟩ := hr
  constructor
  · intro h
    show some (get_color x.ef) = some [255, 0, 0, 200]
    simp only [get_color]
    rw [if_pos h]
  · intro h
    show some (get_color x.ef) = some [0, 255, 0, 200]
    simp only [get_color]
    rw [if_neg (not_lt.mpr h)]

/-- Witness for C1 (amended) at a one-row input with `ef = 50` and the
empty zone list. -/
theorem C1_amended_witness :
    ({ mk_pos 0 0 50 with color := some [255, 0, 0, 200] } : Row).color
      = some [255, 0, 0, 200] :=
  ((C1_amended [mk_pos 0 0 50] [] generate_mock_contrail_zones).2
    _ (by decide)).1 (by norm_num [mk_pos])

/-- The single zone of the spec's concrete scenario 1: boundary
`[[-40,45],[-30,45],[-30,50],[-40,50]]` (name and colour are not fixed
by the scenario; representative values are used). -/
def scenario_zone : Zone :=
  { name := "Scenario Zone", path := [(-40, 45), (-30, 45), (-30, 50), (-40, 50)],
    color := [255, 0, 0, 100] }

/-- C2 (counterexample): the position `(lon=-35, lat=47)` lies inside
the scenario zone's rectangle, yet with `ef = 0` classification gives
it the LOW marker, not HIGH as the claim requires. -/
theorem C2_counterexample :
    classify [mk_pos (-35) 47 0] [scenario_zone]
        = [{ mk_pos (-35) 47 0 with color := some [0, 255, 0, 200] }]
      ∧ in_rect (-40) (-30) 45 50 (-35, 47)
      ∧ [0, 255, 0, 200] ≠ [255, 0, 0, 200] :=
  ⟨by decide, by decide, by decide⟩

/-- C2 (amended): given the scenario zone, classification ignores it —
the output equals that for the empty zone list — and each of the two
scenario positions gets the colour `get_color` of its own `ef` value:
LOW when `ef ≤ 10`, HIGH when `ef > 10`, wherever the point lies. -/
theorem C2_amended (e1 e2 : ℚ) :
    (classify [mk_pos (-35) 47 e1, mk_pos 0 0 e2] [scenario_zone]).map Row.color
        = [some (get_color e1), some (get_color e2)]
      ∧ classify [mk_pos (-35) 47 e1, mk_pos 0 0 e2] [scenario_zone]
          = classify [mk_pos (-35) 47 e1, mk_pos 0 0 e2] []
      ∧ (e1 ≤ 10 → get_color e1 = [0, 255, 0, 200])
      ∧ (10 < e2 → get_color e2 = [255, 0, 0, 200]) := by
  refine ⟨rfl, rfl, ?_, ?_⟩
  · intro h
    simp [get_color, not_lt.mpr h]
  · intro h
    simp [get_color, h]

/-- Witness for C2 (amended) with `ef = 0` at `(-35, 47)` and `ef = 20`
at `(0, 0)`. -/
theorem C2_amended_witness :
    (classify [mk_pos (-35) 47 0, mk_pos 0 0 20] [scenario_zone]).map Row.color
        = [some (get_color 0), some (get_color 20)]
      ∧ get_color 0 = [0, 255, 0, 200]
      ∧ get_color 20 = [255, 0, 0, 200] :=
  ⟨(C2_amended 0 20).1, (C2_amended 0 20).2.2.1 (by norm_num),
   (C2_amended 0 20).2.2.2 (by norm_num)⟩

/-- C3 (counterexample): with the empty zone list, a position with
`ef = 20` is still assigned the HIGH marker — not every position is LOW
when `zones` is empty. -/
theorem C3_counterexample :
    classify [mk_pos 5 5 20] []
        = [{ mk_pos 5 5 20 with color := some [255, 0, 0, 200] }]
      ∧ some [255, 0, 0, 200] ≠ some ([0, 255, 0, 200] : List ℕ) :=
  ⟨by decide, by decide⟩

/-- C3 (amended): with the empty zone list classification still
succeeds on every position (no error, output length equals input
length), and a position is LOW exactly when its `ef ≤ 10`; positions
with `ef > 10` are HIGH even though no zone exists. -/
theorem C3_amended (ps : List Row) :
    (classify ps []).length = ps.length
      ∧ ∀ r ∈ classify ps [],
          (r.ef ≤ 10 → r.color = some [0, 255, 0, 200])
            ∧ (10 < r.ef → r.color = some [255, 0, 0, 200]) := by
  refine ⟨by simp [classify], ?_⟩
  intro r hr
  simp only [classify, List.mem_map] at hr
  obtain ⟨x, -, rfl⟩ := hr
  constructor
  · intro h
    show some (get_color x.ef) = some [0, 255, 0, 200]
    simp only [get_color]
    rw [if_neg (not_lt.mpr h)]
  · intro h
    show some (get_color x.ef) = some [255, 0, 0, 200]
    simp only [get_color]
    rw [if_pos h]

/-- Witness for C3 (amended) at a one-row input with `ef = 0`. -/
theorem C3_amended_witness :
    ({ mk_pos 1 1 0 with color := some [0, 255, 0, 200] } : Row).color
      = some [0, 255, 0, 200] :=
  ((C3_amended [mk_pos 1 1 0]).2 _ (by decide)).1 (by norm_num [mk_pos])

/-- C4: whatever the fetch outcome — exception, `None`, or data — the
zone list reaching the classifier is the fixed fallback
`generate_mock_contrail_zones` (there is no separate zone fetch and no
credential path, and a raised exception is caught, never fatal); the
fallback holds exactly two hard-coded zones, with fixed colours
`[255,0,0,100]` (red / danger) and `[255,140,0,100]` (orange / warning),
whose polygons are the closed rings of two rectangles, and those
rectangles are disjoint. -/
theorem C4_zone_fallback (fetch : Except String (Option (List RawRecord)))
    (efGen : ℕ → ℚ) (sin : ℚ → ℚ) (s : ℚ) :
    (live_data_path fetch efGen sin s).2 = generate_mock_contrail_zones
      ∧ generate_mock_contrail_zones.length = 2
      ∧ generate_mock_contrail_zones.map Zone.color
          = [[255, 0, 0, 100], [255, 140, 0, 100]]
      ∧ generate_mock_contrail_zones.map Zone.path = [p1, p2]
      ∧ p1.head? = p1.getLast? ∧ p2.head? = p2.getLast?
      ∧ (∀ q ∈ p1, in_rect (-40) (-30) 45 50 q)
      ∧ (∀ q ∈ p2, in_rect (-20) (-15) 48 52 q)
      ∧ (∀ q : ℚ × ℚ, in_rect (-40) (-30) 45 50 q → ¬ in_rect (-20) (-15) 48 52 q) := by
  refine ⟨?_, by decide, by decide, by decide, by decide, by decide,
    by decide, by decide, ?_⟩
  · cases fetch with
    | error e => rfl
    | ok v => cases v <;> rfl
  · rintro q ⟨-, hq1, -, -⟩ ⟨hq2, -, -, -⟩
    linarith

/-- Witness for C4 at a concrete failed fetch, a concrete vertex of the
first rectangle, and the concrete point `(-35, 47)` of the first
rectangle, which the second rectangle therefore excludes. -/
theorem C4_zone_fallback_witness :
    (live_data_path (.error "API Connection Error") (fun _ => 0) (fun _ => 0) 0).2
        = generate_mock_contrail_zones
      ∧ in_rect (-40) (-30) 45 50 (-40, 45)
      ∧ ¬ in_rect (-20) (-15) 48 52 (-35, 47) :=
  ⟨(C4_zone_fallback (.error "API Connection Error") (fun _ => 0) (fun _ => 0) 0).1,
   (C4_zone_fallback (.error "API Connection Error") (fun _ => 0) (fun _ => 0) 0).2.2.2.2.2.2.1
     (-40, 45) (by decide),
   (C4_zone_fallback (.error "API Connection Error") (fun _ => 0) (fun _ => 0) 0).2.2.2.2.2.2.2.2
     (-35, 47) (by decide)⟩

/-- C5 (counterexample): a fetch that succeeds with a single record
below the 5000 m altitude threshold yields zero qualifying records, yet
the pipeline receives the empty row list — not the 100-point simulated
trajectory the claim requires. -/
theorem C5_counterexample :
    (live_data_path
        (.ok (some [{ icao24 := some "abc123", callsign := some "AAL100",
                      lon := some (-30), lat := some 46, baroaltitude := some 1000 }]))
        (fun _ => 0) (fun _ => 0) 0).1 = []
      ∧ ((generate_mock_flight_path (fun _ => 0) 0).map FlightPoint.toRow).length = 100
      ∧ ([] : List Row) ≠ (generate_mock_flight_path (fun _ => 0) 0).map FlightPoint.toRow := by
  refine ⟨by decide, by simp [generate_mock_flight_path], ?_⟩
  intro h
  have h100 := congrArg List.length h
  simp [generate_mock_flight_path] at h100

/-- C5 (amended): the 100-point simulated trajectory (running between
the fixed endpoints `(-0.45, 51.47)` and `(-73.77, 40.64)`) is
substituted exactly when the feed raises or returns no data (`None`);
when the feed returns records, the pipeline receives the processed
records — which may be empty when all of them fall below the altitude
threshold — with no substitution. -/
theorem C5_amended (efGen : ℕ → ℚ) (sin : ℚ → ℚ) (s : ℚ) :
    (∀ e, (live_data_path (.error e) efGen sin s).1
        = (generate_mock_flight_path sin s).map FlightPoint.toRow)
      ∧ (live_data_path (.ok none) efGen sin s).1
          = (generate_mock_flight_path sin s).map FlightPoint.toRow
      ∧ ((generate_mock_flight_path sin s).map FlightPoint.toRow).length = 100
      ∧ ((generate_mock_flight_path sin s).get? 0).map FlightPoint.longitude
          = some (-0.45)
      ∧ ((generate_mock_flight_path sin s).get? 0).map FlightPoint.latitude
          = some 51.47
      ∧ ((generate_mock_flight_path sin s).get? 99).map FlightPoint.longitude
          = some (-73.77)
      ∧ ((generate_mock_flight_path sin s).get? 99).map FlightPoint.latitude
          = some 40.64
      ∧ (∀ recs, (live_data_path (.ok (some recs)) efGen sin s).1
          = process_live_states efGen recs) := by
  refine ⟨fun e => rfl, rfl, by simp [generate_mock_flight_path], ?_, ?_, ?_, ?_,
    fun recs => rfl⟩ <;>
    simp [generate_mock_flight_path, List.get?_map, linspace] <;> norm_num

/-- The second component of an `enum` entry is an element of the
underlying list. -/
lemma snd_mem_of_mem_enum {α : Type} {l : List α} {q : ℕ × α}
    (h : q ∈ l.enum) : q.2 ∈ l := by
  rw [List.mem_enum_iff_getElem?] at h
  exact List.getElem?_mem h

/-- C6 (counterexample): a record with altitude 10000 m but no
longitude, latitude or identifier survives processing and reaches the
classification step unfiltered — only the altitude condition is ever
checked. -/
theorem C6_counterexample :
    process_live_states (fun _ => 0)
        [{ icao24 := none, callsign := none, lon := none, lat := none,
           baroaltitude := some 10000 }]
      = [{ icao24 := none, callsign := none, longitude := none, latitude := none,
           altitude := some 10000, time := none, ef := 0, color := none }]
      ∧ ({ icao24 := none, callsign := none, longitude := none, latitude := none,
           altitude := some 10000, time := none, ef := 0, color := none } : Row).longitude
          = none
      ∧ (classify
          [{ icao24 := none, callsign := none, longitude := none, latitude := none,
             altitude := some 10000, time := none, ef := 0, color := none }]
          generate_mock_contrail_zones).length = 1 :=
  ⟨by decide, by decide, by decide⟩

/-- C6 (amended): every row that survives live processing has a present
altitude strictly above the 5000 m threshold (so all below-threshold or
altitude-less records are removed before classification), but the
altitude test is the only filter: processing keeps exactly the rows the
altitude filter keeps, regardless of missing identifier, longitude or
latitude fields. -/
theorem C6_amended (efGen : ℕ → ℚ) (recs : List RawRecord) :
    (∀ r ∈ process_live_states efGen recs, ∃ a, r.altitude = some a ∧ 5000 < a)
      ∧ (process_live_states efGen recs).length
          = ((recs.map rename_columns).filter altitude_filter).length := by
  constructor
  · intro r hr
    simp only [process_live_states, List.mem_map] at hr
    obtain ⟨q, hq, rfl⟩ := hr
    have hmem : q.2 ∈ (recs.map rename_columns).filter altitude_filter :=
      snd_mem_of_mem_enum hq
    have hfilt : altitude_filter q.2 = true := List.of_mem_filter hmem
    cases h : q.2.altitude with
    | none => simp [altitude_filter, h] at hfilt
    | some a =>
      simp only [altitude_filter, h, decide_eq_true_eq] at hfilt
      exact ⟨a, rfl, hfilt⟩
  · simp [process_live_states]

/-- Witness for C6 (amended): the surviving row built from a complete
record at 11000 m has altitude above the threshold. -/
theorem C6_amended_witness :
    ∃ a, ({ icao24 := some "abc123", callsign := some "AAL100",
            longitude := some (-30), latitude := some 46, altitude := some 11000,
            time := none, ef := 7, color := none } : Row).altitude = some a
          ∧ 5000 < a :=
  (C6_amended (fun _ => 7)
      [{ icao24 := some "abc123", callsign := some "AAL100", lon := some (-30),
         lat := some 46, baroaltitude := some 11000 }]).1 _ (by decide)

/-- `classify` acts index-wise: the row at index `i` of the output is
the row at index `i` of the input with its colour recomputed. -/
lemma classify_getElem? (ps : List Row) (zs : List Zone) (i : ℕ) :
    (classify ps zs)[i]? = ps[i]?.map fun r => { r with color := some (get_color r.ef) } := by
  simp [classify, List.getElem?_map]

/-- C10: the simulated path has exactly 100 points; the point at index
`i` has longitude `-0.45 - 73.32*i/99` (linear from `-0.45` to
`-73.77`), latitude `51.47 - 10.83*i/99` (from `51.47` to `40.64`),
altitude `10668 + 1219*i/99` (from `10668` to `11887`), and
`ef = 50*sin(i/10)` when `30 < i < 70` and `0` otherwise; consequently
every point with index `≤ 30` or `≥ 70` is coloured green (low impact)
by the `ef > 10` threshold, for any zone list. -/
theorem C10_mock_path_profile (sin : ℚ → ℚ) (s : ℚ) (zs : List Zone) :
    (generate_mock_flight_path sin s).length = 100
      ∧ (∀ i : ℕ, i < 100 → ∃ q, (generate_mock_flight_path sin s)[i]? = some q
          ∧ q.longitude = -0.45 - 73.32 * (i : ℚ) / 99
          ∧ q.latitude = 51.47 - 10.83 * (i : ℚ) / 99
          ∧ q.altitude = 10668 + 1219 * (i : ℚ) / 99
          ∧ q.ef = if 30 < i ∧ i < 70 then 50 * sin ((i : ℚ) / 10) else 0)
      ∧ (∀ i : ℕ, i < 100 → i ≤ 30 ∨ 70 ≤ i → ∃ r,
          (classify ((generate_mock_flight_path sin s).map FlightPoint.toRow) zs)[i]?
              = some r
            ∧ r.color = some [0, 255, 0, 200]) := by
  have hget : ∀ i : ℕ, i < 100 → (generate_mock_flight_path sin s)[i]? = some
      { longitude := linspace (-0.45) (-73.77) 100 i
        latitude := linspace 51.47 40.64 100 i
        altitude := linspace 10668 11887 100 i
        time := s + i * 4.8
        ef := if 30 < i ∧ i < 70 then 50 * sin ((i : ℚ) / 10) else 0 } := by
    intro i hi
    simp [generate_mock_flight_path, List.getElem?_map, List.getElem?_range, hi]
  refine ⟨by simp [generate_mock_flight_path], ?_, ?_⟩
  · intro i hi
    refine ⟨_, hget i hi, ?_, ?_, ?_, rfl⟩
    · show linspace (-0.45) (-73.77) 100 i = -0.45 - 73.32 * (i : ℚ) / 99
      simp only [linspace]
      norm_num
      ring
    · show linspace 51.47 40.64 100 i = 51.47 - 10.83 * (i : ℚ) / 99
      simp only [linspace]
      norm_num
      ring
    · show linspace 10668 11887 100 i = 10668 + 1219 * (i : ℚ) / 99
      simp only [linspace]
      norm_num
      ring
  · intro i hi hlow
    have hef : (if 30 < i ∧ i < 70 then 50 * sin ((i : ℚ) / 10) else 0) = 0 := by
      rcases hlow with h | h <;>
        · rw [if_neg]
          rintro ⟨h1, h2⟩
          omega
    have hq : ((generate_mock_flight_path sin s).map FlightPoint.toRow)[i]?
        = some (FlightPoint.toRow
          { longitude := linspace (-0.45) (-73.77) 100 i
            latitude := linspace 51.47 40.64 100 i
            altitude := linspace 10668 11887 100 i
            time := s + i * 4.8
            ef := if 30 < i ∧ i < 70 then 50 * sin ((i : ℚ) / 10) else 0 }) := by
      rw [List.getElem?_map, hget i hi]
      rfl
    rw [classify_getElem?, hq]
    refine ⟨_, rfl, ?_⟩
    show some (get_color (if 30 < i ∧ i < 70 then 50 * sin ((i : ℚ) / 10) else 0))
      = some [0, 255, 0, 200]
    rw [hef]
    decide

/-- Witness for C10 at index 0 (profile) and index 99 (green colour),
with the zero sine function, start time 0 and the mock zone list. -/
theorem C10_mock_path_profile_witness :
    (∃ q, (generate_mock_flight_path (fun _ => 0) 0)[(0 : ℕ)]? = some q
        ∧ q.longitude = -0.45 - 73.32 * ((0 : ℕ) : ℚ) / 99
        ∧ q.latitude = 51.47 - 10.83 * ((0 : ℕ) : ℚ) / 99
        ∧ q.altitude = 10668 + 1219 * ((0 : ℕ) : ℚ) / 99
        ∧ q.ef = if 30 < (0 : ℕ) ∧ (0 : ℕ) < 70 then
            50 * (fun _ : ℚ => (0 : ℚ)) (((0 : ℕ) : ℚ) / 10) else 0)
      ∧ (∃ r, (classify
            ((generate_mock_flight_path (fun _ => 0) 0).map FlightPoint.toRow)
            generate_mock_contrail_zones)[(99 : ℕ)]? = some r
          ∧ r.color = some [0, 255, 0, 200]) :=
  ⟨(C10_mock_path_profile (fun _ => 0) 0 generate_mock_contrail_zones).2.1 0 (by norm_num),
   (C10_mock_path_profile (fun _ => 0) 0 generate_mock_contrail_zones).2.2 99
     (by norm_num) (Or.inr (by norm_num))⟩
